import Mathlib

/-
Shallow embedding of the audio-mixing core of `src/main.py`.

The program mixes a synthesized voice track with a background music track
using pydub `AudioSegment` operations.  The embedding models a decoded PCM
segment as a list of frames (one list of rational amplitude samples per
frame, one sample per channel) together with its frame rate and channel
count.  pydub indexes segments by milliseconds; the model works at frame
granularity (exact whenever segment durations are whole milliseconds), in
the units the specification itself uses for duration matching.  The
dB-to-linear-amplitude conversion (10 ^ (db / 20), computed by pydub in
floating point) is abstracted as an explicit function parameter `g`;
decoding and MP3 encoding are external collaborators and are not modelled.
-/

namespace DV

/-- One PCM frame: one amplitude sample per channel. -/
abbrev Frame := List ℚ

/-- A decoded pydub `AudioSegment`: frame rate in Hz, channel count, and
the PCM data as a list of frames. -/
structure AudioSegment where
  frame_rate : ℕ
  channels : ℕ
  data : List Frame
deriving Repr, DecidableEq

/-- Number of frames of a segment (pydub `frame_count`; pydub `len` is the
duration in milliseconds, modelled at frame granularity). -/
def AudioSegment.frame_count (b : AudioSegment) : ℕ := b.data.length

/-- Saturating clip to the valid 16-bit sample range, as pydub's
`audioop`-backed sample arithmetic saturates instead of wrapping. -/
def clip (x : ℚ) : ℚ := max (-32768) (min 32767 x)

/-- Scale every sample of a frame by a linear factor, saturating. -/
def mulFrame (f : ℚ) (fr : Frame) : Frame := fr.map (fun s => clip (f * s))

/-- pydub `segment + gain_db` (`apply_gain`): every sample is scaled by the
linear factor of the dB gain.  `g` is the dB-to-linear conversion
10 ^ (db / 20), abstracted because pydub computes it in floating point. -/
def AudioSegment.apply_gain (g : ℚ → ℚ) (db : ℚ) (b : AudioSegment) : AudioSegment :=
  { b with data := b.data.map (mulFrame (g db)) }

/-- pydub `set_frame_rate`: resample to a new rate, preserving wall-clock
duration.  Modelled as zero-order-hold resampling (an abstraction of
`audioop.ratecv`): output frame `j` holds input frame `j * old / new`.
pydub returns the segment unchanged when the rate already matches. -/
def AudioSegment.set_frame_rate (b : AudioSegment) (r : ℕ) : AudioSegment :=
  if b.frame_rate = r then b
  else { b with
         frame_rate := r
         data := (List.range (b.data.length * r / b.frame_rate)).map
           (fun j => b.data.getD (j * b.frame_rate / r) []) }

/-- pydub `set_channels`: mono-to-stereo duplicates the sample of each
frame, stereo-to-mono averages the two samples of each frame.  pydub
raises for any other conversion; segments here satisfy the 1-or-2-channel
validity invariant, under which the final catch-all branch is
unreachable. -/
def AudioSegment.set_channels (b : AudioSegment) (ch : ℕ) : AudioSegment :=
  if b.channels = ch then b
  else if b.channels = 1 ∧ ch = 2 then
    { b with channels := 2, data := b.data.map (fun fr => fr ++ fr) }
  else if b.channels = 2 ∧ ch = 1 then
    { b with channels := 1, data := b.data.map (fun fr => [fr.sum / 2]) }
  else b

/-- pydub slice `segment[:n]` from the start (pydub converts the
millisecond bound to a frame count; the model takes the bound in
frames). -/
def AudioSegment.takeFrames (b : AudioSegment) (n : ℕ) : AudioSegment :=
  { b with data := b.data.take n }

/-- pydub `segment * n`: the segment repeated `n` times by whole-copy
concatenation. -/
def AudioSegment.repeatSeg (b : AudioSegment) (n : ℕ) : AudioSegment :=
  { b with data := (List.replicate n b.data).flatten }

/-- Number of frames covered by `ms` milliseconds at frame rate `r`. -/
def msToFrames (ms r : ℕ) : ℕ := ms * r / 1000

/-- pydub `fade_in(ms)`: a linear amplitude ramp from 0.0 towards 1.0 over
the first `ms` milliseconds, clamped to the segment when it is shorter;
frames past the fade window are left untouched. -/
def AudioSegment.fade_in (b : AudioSegment) (ms : ℕ) : AudioSegment :=
  { b with data :=
      b.data.mapIdx (fun i fr =>
        if i < min (msToFrames ms b.frame_rate) b.data.length then
          mulFrame ((i : ℚ) / (min (msToFrames ms b.frame_rate) b.data.length : ℚ)) fr
        else fr) }

/-- pydub `fade_out(ms)`: the symmetric linear ramp from 1.0 down to 0.0
over the last `ms` milliseconds (clamped to the segment when shorter), so
the ramp ends at the final frame; earlier frames are left untouched. -/
def AudioSegment.fade_out (b : AudioSegment) (ms : ℕ) : AudioSegment :=
  { b with data :=
      b.data.mapIdx (fun i fr =>
        if b.data.length - min (msToFrames ms b.frame_rate) b.data.length ≤ i then
          mulFrame (((b.data.length - 1 - i : ℕ) : ℚ) /
            (min (msToFrames ms b.frame_rate) b.data.length : ℚ)) fr
        else fr) }

/-- Sample-wise sum of two aligned frames, saturating (pydub overlays via
`audioop.add`, which clips to the sample range). -/
def addFrame (x y : Frame) : Frame := x.zipWith (fun p q => clip (p + q)) y

/-- One segment's half of pydub `_sync`: remap to the given channel count,
then resample to the given frame rate (the sample-width leg of `_sync`
has no counterpart here since samples are unscaled rationals). -/
def syncTo (ch fr : ℕ) (b : AudioSegment) : AudioSegment :=
  (b.set_channels ch).set_frame_rate fr

/-- pydub `overlay`: both segments are first synchronized to the larger
channel count and frame rate (pydub `_sync`), then summed frame by frame;
the overlaid segment is truncated to the base segment's length and the
base segment continues unchanged past its end. -/
def AudioSegment.overlay (a b : AudioSegment) : AudioSegment :=
  { syncTo (max a.channels b.channels) (max a.frame_rate b.frame_rate) a with
    data := (syncTo (max a.channels b.channels) (max a.frame_rate b.frame_rate) a).data.mapIdx
      (fun i fra =>
        match (syncTo (max a.channels b.channels) (max a.frame_rate b.frame_rate) b).data[i]? with
        | some frb => addFrame fra frb
        | none => fra) }

/-- The music gain in decibels, line 77 of `src/main.py`:
`volume_db = -30 + (music_volume_pct * 0.35)`. -/
def volume_db (music_volume_pct : ℕ) : ℚ := -30 + (music_volume_pct : ℚ) * 0.35

/-- The frame-rate leg of format alignment, lines 72-73 of `src/main.py`:
resample the music to the voice's frame rate when they differ. -/
def align_rate (voice music : AudioSegment) : AudioSegment :=
  if voice.frame_rate ≠ music.frame_rate
    then music.set_frame_rate voice.frame_rate else music

/-- Format alignment, lines 72-75 of `src/main.py`: resample the music to
the voice's frame rate when they differ, then remap its channels to the
voice's channel count when they differ. -/
def align_music (voice music : AudioSegment) : AudioSegment :=
  if voice.channels ≠ (align_rate voice music).channels
    then (align_rate voice music).set_channels voice.channels
    else align_rate voice music

/-- The looping step, line 80-81 of `src/main.py`: when the music is
shorter than the voice, repeat it `len(voice) / len(music) + 1` whole
times (floor division, as the source's `//` computes). -/
def loop_stage (voiceFrames : ℕ) (m : AudioSegment) : AudioSegment :=
  if m.frame_count < voiceFrames
    then m.repeatSeg (voiceFrames / m.frame_count + 1) else m

/-- Duration matching, lines 80-82 of `src/main.py`: loop when shorter,
then truncate to the voice's length (`music = music[:len(voice)]`). -/
def match_duration (voiceFrames : ℕ) (m : AudioSegment) : AudioSegment :=
  (loop_stage voiceFrames m).takeFrames voiceFrames

/-- The fade-in, line 85-86 of `src/main.py`: applied only when the flag
is set. -/
def apply_fade_in (fade_in_flag : Bool) (m : AudioSegment) : AudioSegment :=
  if fade_in_flag then m.fade_in 3000 else m

/-- The fade step, lines 85-88 of `src/main.py`: optional fade-in then
optional fade-out, both with a 3000 ms window. -/
def apply_fades (fade_in_flag fade_out_flag : Bool) (m : AudioSegment) : AudioSegment :=
  if fade_out_flag then (apply_fade_in fade_in_flag m).fade_out 3000
    else apply_fade_in fade_in_flag m

/-- Outcome of `mix_with_music`: a streamlit error message with a `False`
return, or a mixed segment handed to the MP3 encoder. -/
inductive MixOutcome where
  | failure (message : String)
  | success (mixed : AudioSegment)
deriving Repr, DecidableEq

/-- The empty-input error shown at line 66 of `src/main.py`. -/
def emptyAudioMessage : String := "One of the audio files is empty or corrupted"

/-- Frame count of the produced output segment, if one was produced. -/
def MixOutcome.output_frame_count : MixOutcome → Option ℕ
  | MixOutcome.failure _ => none
  | MixOutcome.success b => some b.frame_count

/-- The mixing core of `mix_with_music`, lines 65-92 of `src/main.py`,
on already-decoded segments (decoding and MP3 export are external
collaborators).  `g` abstracts pydub's dB-to-linear conversion. -/
def mix_with_music (g : ℚ → ℚ) (voice music : AudioSegment)
    (music_volume_pct : ℕ) (fade_in_flag fade_out_flag : Bool) : MixOutcome :=
  if voice.frame_count = 0 ∨ music.frame_count = 0 then
    MixOutcome.failure emptyAudioMessage
  else if music_volume_pct = 0 then
    MixOutcome.success voice
  else
    MixOutcome.success (voice.overlay
      (apply_fades fade_in_flag fade_out_flag
        (match_duration voice.frame_count
          (AudioSegment.apply_gain g (volume_db music_volume_pct)
            (align_music voice music)))))

/-- The slice bound of `test_audio_files`, line 105-106 of `src/main.py`:
`min(len(voice), 5000)` milliseconds, expressed in frames at the voice's
rate (both slices apply this same time bound). -/
def test_cut (voice : AudioSegment) : ℕ :=
  min voice.frame_count (msToFrames 5000 voice.frame_rate)

/-- The diagnostic preview of `test_audio_files`, lines 102-107 of
`src/main.py`: a fixed -20 dB gain on the music, both tracks cut to
`min(len(voice), 5000)`, then overlaid. -/
def test_mixed (g : ℚ → ℚ) (voice music : AudioSegment) : AudioSegment :=
  (voice.takeFrames (test_cut voice)).overlay
    ((AudioSegment.apply_gain g (-20) music).takeFrames (test_cut voice))

/-- The catch-all exception handler of `mix_with_music`, lines 95-97 of
`src/main.py`: whatever stage raised and whatever exception text `e` it
raised with, the surfaced result is the one generic streamlit message
together with a `False` return; the handler has no stage input, so the
`stage` argument models which stage failed and is ignored. -/
def surfaceMixFailure (stage e : String) : String × Bool :=
  ("Error mixing audio: " ++ e, false)

/-- A temporary file staged around the engine by the UI handlers. -/
inductive TempFile where
  | voiceTmp
  | musicTmp
  | mixedTmp
  | testTmp
deriving Repr, DecidableEq

/-- The exit paths of a Preview or Download button handler: the mix
returned `True`, the mix returned `False`, or an exception was caught. -/
inductive ExitPath where
  | mixSucceeded
  | mixReturnedFalse
  | exceptionCaught
deriving Repr, DecidableEq

/-- Temp files created by the Preview handler, lines 171-182 of
`src/main.py`: the voice staging file always, plus the music staging file
and the mixed output file when music mixing is active.  Every one is a
`NamedTemporaryFile(delete=False, ...)`. -/
def previewCreatedTempFiles (use_music has_music : Bool) (music_volume_pct : ℕ) : List TempFile :=
  [TempFile.voiceTmp] ++
    (if use_music ∧ has_music ∧ 0 < music_volume_pct
      then [TempFile.musicTmp, TempFile.mixedTmp] else [])

/-- Temp files the Preview handler deletes on a given exit path: the
source contains no `os.remove`/`os.unlink` call and every temp file is
created with delete=False, so nothing is deleted on any path. -/
def previewDeletedTempFiles (use_music has_music : Bool) (music_volume_pct : ℕ)
    (path : ExitPath) : List TempFile := []

/-- Temp files created by the Download handler, lines 209-225 of
`src/main.py`: the voice staging file always; when music mixing is active,
the music staging file, the mixed output file, and, when the test checkbox
is on, the preview file created inside `test_audio_files` (line 109).  All
use delete=False. -/
def downloadCreatedTempFiles (use_music has_music run_test : Bool)
    (music_volume_pct : ℕ) : List TempFile :=
  [TempFile.voiceTmp] ++
    (if use_music ∧ has_music ∧ 0 < music_volume_pct
      then [TempFile.musicTmp, TempFile.mixedTmp] ++
        (if run_test then [TempFile.testTmp] else [])
      else [])

/-- Temp files the Download handler deletes on a given exit path: none,
as for the Preview handler. -/
def downloadDeletedTempFiles (use_music has_music run_test : Bool)
    (music_volume_pct : ℕ) (path : ExitPath) : List TempFile := []

/-- Temp files that persist after an invocation: the created files minus
the deleted ones. -/
def persistedTempFiles (created deleted : List TempFile) : List TempFile :=
  created.filter (fun f => !(deleted.contains f))

/-- A concrete 4-frame mono voice segment at 1000 Hz (1 frame per
millisecond, so frame counts and pydub millisecond lengths coincide). -/
def exVoice : AudioSegment := ⟨1000, 1, [[100], [200], [300], [400]]⟩

/-- A concrete 2-frame mono music segment at 1000 Hz. -/
def exMusic : AudioSegment := ⟨1000, 1, [[10], [20]]⟩

/-- A concrete empty segment (zero frames after decoding). -/
def exEmpty : AudioSegment := ⟨1000, 1, []⟩

/-! ### Helper lemmas about the embedded pydub operations -/

theorem apply_gain_frame_rate (g : ℚ → ℚ) (db : ℚ) (b : AudioSegment) :
    (AudioSegment.apply_gain g db b).frame_rate = b.frame_rate := rfl

theorem apply_gain_channels (g : ℚ → ℚ) (db : ℚ) (b : AudioSegment) :
    (AudioSegment.apply_gain g db b).channels = b.channels := rfl

theorem apply_gain_frame_count (g : ℚ → ℚ) (db : ℚ) (b : AudioSegment) :
    (AudioSegment.apply_gain g db b).frame_count = b.frame_count := by
  simp [AudioSegment.apply_gain, AudioSegment.frame_count]

theorem set_frame_rate_frame_rate (b : AudioSegment) (r : ℕ) :
    (b.set_frame_rate r).frame_rate = r := by
  unfold AudioSegment.set_frame_rate
  split
  · assumption
  · rfl

theorem set_frame_rate_channels (b : AudioSegment) (r : ℕ) :
    (b.set_frame_rate r).channels = b.channels := by
  unfold AudioSegment.set_frame_rate
  split <;> rfl

theorem set_frame_rate_self (b : AudioSegment) :
    b.set_frame_rate b.frame_rate = b := by
  simp [AudioSegment.set_frame_rate]

theorem set_channels_self (b : AudioSegment) :
    b.set_channels b.channels = b := by
  simp [AudioSegment.set_channels]

theorem set_channels_channels (b : AudioSegment) (ch : ℕ)
    (hb : b.channels = 1 ∨ b.channels = 2) (hch : ch = 1 ∨ ch = 2) :
    (b.set_channels ch).channels = ch := by
  rcases hb with h1 | h1 <;> rcases hch with h2 | h2 <;>
    simp [AudioSegment.set_channels, h1, h2]

theorem set_channels_frame_count (b : AudioSegment) (ch : ℕ) :
    (b.set_channels ch).frame_count = b.frame_count := by
  unfold AudioSegment.set_channels
  split
  · rfl
  · split
    · simp [AudioSegment.frame_count]
    · split <;> simp [AudioSegment.frame_count]

theorem takeFrames_frame_rate (b : AudioSegment) (n : ℕ) :
    (b.takeFrames n).frame_rate = b.frame_rate := rfl

theorem takeFrames_channels (b : AudioSegment) (n : ℕ) :
    (b.takeFrames n).channels = b.channels := rfl

theorem takeFrames_frame_count (b : AudioSegment) (n : ℕ) :
    (b.takeFrames n).frame_count = min n b.frame_count := by
  simp [AudioSegment.takeFrames, AudioSegment.frame_count]

theorem repeatSeg_frame_rate (b : AudioSegment) (n : ℕ) :
    (b.repeatSeg n).frame_rate = b.frame_rate := rfl

theorem repeatSeg_channels (b : AudioSegment) (n : ℕ) :
    (b.repeatSeg n).channels = b.channels := rfl

theorem repeatSeg_frame_count (b : AudioSegment) (n : ℕ) :
    (b.repeatSeg n).frame_count = n * b.frame_count := by
  simp [AudioSegment.repeatSeg, AudioSegment.frame_count, List.length_flatten,
    List.map_replicate, List.sum_replicate, smul_eq_mul]

theorem fade_in_frame_rate (b : AudioSegment) (ms : ℕ) :
    (b.fade_in ms).frame_rate = b.frame_rate := rfl

theorem fade_in_channels (b : AudioSegment) (ms : ℕ) :
    (b.fade_in ms).channels = b.channels := rfl

theorem fade_in_frame_count (b : AudioSegment) (ms : ℕ) :
    (b.fade_in ms).frame_count = b.frame_count := by
  simp [AudioSegment.fade_in, AudioSegment.frame_count]

theorem fade_out_frame_rate (b : AudioSegment) (ms : ℕ) :
    (b.fade_out ms).frame_rate = b.frame_rate := rfl

theorem fade_out_channels (b : AudioSegment) (ms : ℕ) :
    (b.fade_out ms).channels = b.channels := rfl

theorem fade_out_frame_count (b : AudioSegment) (ms : ℕ) :
    (b.fade_out ms).frame_count = b.frame_count := by
  simp [AudioSegment.fade_out, AudioSegment.frame_count]

theorem set_channels_frame_rate (b : AudioSegment) (ch : ℕ) :
    (b.set_channels ch).frame_rate = b.frame_rate := by
  unfold AudioSegment.set_channels
  split
  · rfl
  · split
    · rfl
    · split <;> rfl

theorem align_rate_frame_rate (voice music : AudioSegment) :
    (align_rate voice music).frame_rate = voice.frame_rate := by
  unfold align_rate
  split
  · exact set_frame_rate_frame_rate music voice.frame_rate
  · next h => exact (not_ne_iff.mp h).symm

theorem align_rate_channels (voice music : AudioSegment) :
    (align_rate voice music).channels = music.channels := by
  unfold align_rate
  split
  · exact set_frame_rate_channels music voice.frame_rate
  · rfl

theorem align_music_frame_rate (voice music : AudioSegment) :
    (align_music voice music).frame_rate = voice.frame_rate := by
  unfold align_music
  split
  · rw [set_channels_frame_rate, align_rate_frame_rate]
  · exact align_rate_frame_rate voice music

theorem align_music_channels (voice music : AudioSegment)
    (hv : voice.channels = 1 ∨ voice.channels = 2)
    (hm : music.channels = 1 ∨ music.channels = 2) :
    (align_music voice music).channels = voice.channels := by
  unfold align_music
  split
  · exact set_channels_channels _ _ (by rw [align_rate_channels]; exact hm) hv
  · next h => exact (not_ne_iff.mp h).symm

theorem loop_stage_frame_rate (v : ℕ) (m : AudioSegment) :
    (loop_stage v m).frame_rate = m.frame_rate := by
  unfold loop_stage
  split <;> rfl

theorem loop_stage_channels (v : ℕ) (m : AudioSegment) :
    (loop_stage v m).channels = m.channels := by
  unfold loop_stage
  split <;> rfl

theorem match_duration_frame_rate (v : ℕ) (m : AudioSegment) :
    (match_duration v m).frame_rate = m.frame_rate := by
  rw [match_duration, takeFrames_frame_rate, loop_stage_frame_rate]

theorem match_duration_channels (v : ℕ) (m : AudioSegment) :
    (match_duration v m).channels = m.channels := by
  rw [match_duration, takeFrames_channels, loop_stage_channels]

theorem apply_fade_in_frame_rate (fi : Bool) (m : AudioSegment) :
    (apply_fade_in fi m).frame_rate = m.frame_rate := by
  unfold apply_fade_in
  split <;> rfl

theorem apply_fade_in_channels (fi : Bool) (m : AudioSegment) :
    (apply_fade_in fi m).channels = m.channels := by
  unfold apply_fade_in
  split <;> rfl

theorem apply_fade_in_frame_count (fi : Bool) (m : AudioSegment) :
    (apply_fade_in fi m).frame_count = m.frame_count := by
  unfold apply_fade_in
  split
  · exact fade_in_frame_count m 3000
  · rfl

theorem apply_fades_frame_rate (fi fo : Bool) (m : AudioSegment) :
    (apply_fades fi fo m).frame_rate = m.frame_rate := by
  unfold apply_fades
  split
  · rw [fade_out_frame_rate, apply_fade_in_frame_rate]
  · exact apply_fade_in_frame_rate fi m

theorem apply_fades_channels (fi fo : Bool) (m : AudioSegment) :
    (apply_fades fi fo m).channels = m.channels := by
  unfold apply_fades
  split
  · rw [fade_out_channels, apply_fade_in_channels]
  · exact apply_fade_in_channels fi m

theorem apply_fades_frame_count (fi fo : Bool) (m : AudioSegment) :
    (apply_fades fi fo m).frame_count = m.frame_count := by
  unfold apply_fades
  split
  · rw [fade_out_frame_count, apply_fade_in_frame_count]
  · exact apply_fade_in_frame_count fi m

/-- When the overlaid segment is already at the base segment's channel
count and frame rate (as it always is inside `mix_with_music` after the
alignment stage), pydub's `_sync` step is the identity and `overlay` is
the plain frame-wise saturating sum over the base segment. -/
theorem overlay_aligned (a b : AudioSegment)
    (hch : b.channels = a.channels) (hfr : b.frame_rate = a.frame_rate) :
    a.overlay b =
      { a with data := a.data.mapIdx (fun i fra =>
          match b.data[i]? with
          | some frb => addFrame fra frb
          | none => fra) } := by
  have ha : syncTo a.channels a.frame_rate a = a := by
    rw [syncTo, set_channels_self, set_frame_rate_self]
  have hb : syncTo a.channels a.frame_rate b = b := by
    rw [syncTo, ← hch, set_channels_self, ← hfr, set_frame_rate_self]
  unfold AudioSegment.overlay
  rw [hch, hfr, max_self, max_self, ha, hb]

theorem overlay_aligned_frame_count (a b : AudioSegment)
    (hch : b.channels = a.channels) (hfr : b.frame_rate = a.frame_rate) :
    (a.overlay b).frame_count = a.frame_count := by
  rw [overlay_aligned a b hch hfr]
  simp [AudioSegment.frame_count]

theorem le_div_succ_mul (v mc : ℕ) (h : 0 < mc) : v ≤ (v / mc + 1) * mc := by
  have h1 := Nat.div_add_mod v mc
  have h2 := Nat.mod_lt v h
  calc v = mc * (v / mc) + v % mc := h1.symm
    _ ≤ mc * (v / mc) + mc := by omega
    _ = (v / mc + 1) * mc := by ring

/-- Indexing into a whole-copy concatenation of a list is cyclic. -/
theorem getElem?_flatten_replicate {α : Type} (l : List α) (n i : ℕ)
    (h : i < n * l.length) :
    ((List.replicate n l).flatten)[i]? = l[i % l.length]? := by
  induction n generalizing i with
  | zero => simp at h
  | succ n ih =>
    rw [List.replicate_succ, List.flatten_cons]
    by_cases hi : i < l.length
    · rw [List.getElem?_append, if_pos hi, Nat.mod_eq_of_lt hi]
    · push_neg at hi
      rw [List.getElem?_append_right hi, ih (i - l.length) (by rw [Nat.succ_mul] at h; omega)]
      rw [Nat.mod_eq_sub_mod hi]

/-- C2 (amended): in the duration-matching step, when the music is
strictly shorter than the voice, the gained music is repeated exactly
`voice_frames / music_frames + 1` whole times (floor division plus one,
which reaches or exceeds the voice's frame count; it equals
`ceil(voice_frames / music_frames)` except when the music's frame count
divides the voice's, where it is one extra whole copy), and the
concatenation is then truncated to exactly `voice_frames` frames, whose
frames cycle through the music. -/
theorem duration_matching_floor_succ (m : AudioSegment) (v : ℕ)
    (hm : 0 < m.frame_count) (hlt : m.frame_count < v) :
    loop_stage v m = m.repeatSeg (v / m.frame_count + 1)
    ∧ (loop_stage v m).frame_count = (v / m.frame_count + 1) * m.frame_count
    ∧ v ≤ (loop_stage v m).frame_count
    ∧ (match_duration v m).frame_count = v
    ∧ ∀ i, i < v → (match_duration v m).data[i]? = m.data[i % m.frame_count]? := by
  have hloop : loop_stage v m = m.repeatSeg (v / m.frame_count + 1) := by
    unfold loop_stage
    rw [if_pos hlt]
  have hcount : (loop_stage v m).frame_count = (v / m.frame_count + 1) * m.frame_count := by
    rw [hloop, repeatSeg_frame_count]
  have hle : v ≤ (loop_stage v m).frame_count := by
    rw [hcount]
    exact le_div_succ_mul v m.frame_count hm
  refine ⟨hloop, hcount, hle, ?_, ?_⟩
  · rw [match_duration, takeFrames_frame_count, min_eq_left hle]
  · intro i hi
    have hdata : (match_duration v m).data = (loop_stage v m).data.take v := rfl
    rw [hdata, List.getElem?_take, if_pos hi, hloop]
    have hrep : (m.repeatSeg (v / m.frame_count + 1)).data
        = (List.replicate (v / m.frame_count + 1) m.data).flatten := rfl
    rw [hrep]
    exact getElem?_flatten_replicate m.data (v / m.frame_count + 1) i
      (lt_of_lt_of_le hi (by rw [hloop, repeatSeg_frame_count] at hle; exact hle))

/-- Frame-wise characterization of `fade_in`: frames inside the window
`min(window, length)` are scaled by the linear ramp factor `i / window`,
frames past the window are untouched. -/
theorem fade_in_getElem (b : AudioSegment) (ms i : ℕ) :
    (b.fade_in ms).data[i]? =
      if i < min (msToFrames ms b.frame_rate) b.frame_count then
        (b.data[i]?).map
          (mulFrame ((i : ℚ) / (min (msToFrames ms b.frame_rate) b.frame_count : ℚ)))
      else b.data[i]? := by
  simp only [AudioSegment.fade_in, AudioSegment.frame_count, List.getElem?_mapIdx]
  by_cases hc : i < min (msToFrames ms b.frame_rate) b.data.length
  · simp [hc]
  · simp [hc]

/-- Frame-wise characterization of `fade_out`: the last `min(window,
length)` frames are scaled by the linear ramp factor `(n - 1 - i) /
window`, ending at 0 on the final frame; earlier frames are untouched. -/
theorem fade_out_getElem (b : AudioSegment) (ms i : ℕ) :
    (b.fade_out ms).data[i]? =
      if b.frame_count - min (msToFrames ms b.frame_rate) b.frame_count ≤ i then
        (b.data[i]?).map
          (mulFrame (((b.frame_count - 1 - i : ℕ) : ℚ) /
            (min (msToFrames ms b.frame_rate) b.frame_count : ℚ)))
      else b.data[i]? := by
  simp only [AudioSegment.fade_out, AudioSegment.frame_count, List.getElem?_mapIdx]
  by_cases hc : b.data.length - min (msToFrames ms b.frame_rate) b.data.length ≤ i
  · simp [hc]
  · simp [hc]

/-- Unfolding of `mix_with_music` on the main path: with non-empty inputs
and a positive volume, the mix is the overlay of the voice with the
aligned, gained, duration-matched, faded music, in that order. -/
theorem mix_with_music_eq (g : ℚ → ℚ) (voice music : AudioSegment)
    (pct : ℕ) (fi fo : Bool)
    (hv : voice.frame_count ≠ 0) (hm : music.frame_count ≠ 0) (hp : pct ≠ 0) :
    mix_with_music g voice music pct fi fo =
      MixOutcome.success (voice.overlay
        (apply_fades fi fo
          (match_duration voice.frame_count
            (AudioSegment.apply_gain g (volume_db pct)
              (align_music voice music))))) := by
  simp [mix_with_music, hv, hm, hp]

/-! ### The claims -/

/-- C1: for every valid non-empty voice and music segment and every
positive volume percentage, the buffer produced by the mix (before
encoding) has exactly the voice's frame count, whether the music was
originally shorter (looped) or longer (truncated) than the voice. -/
theorem mix_output_frame_count (g : ℚ → ℚ) (voice music : AudioSegment)
    (pct : ℕ) (fi fo : Bool)
    (hvc : voice.channels = 1 ∨ voice.channels = 2)
    (hmc : music.channels = 1 ∨ music.channels = 2)
    (hv : voice.frame_count ≠ 0) (hm : music.frame_count ≠ 0) (hp : 0 < pct) :
    (mix_with_music g voice music pct fi fo).output_frame_count
      = some voice.frame_count := by
  rw [mix_with_music_eq g voice music pct fi fo hv hm (Nat.pos_iff_ne_zero.mp hp),
    MixOutcome.output_frame_count]
  congr 1
  apply overlay_aligned_frame_count
  · rw [apply_fades_channels, match_duration_channels, apply_gain_channels,
      align_music_channels voice music hvc hmc]
  · rw [apply_fades_frame_rate, match_duration_frame_rate, apply_gain_frame_rate,
      align_music_frame_rate]

theorem mix_output_frame_count_witness :
    (exVoice.channels = 1 ∨ exVoice.channels = 2)
    ∧ (exMusic.channels = 1 ∨ exMusic.channels = 2)
    ∧ exVoice.frame_count ≠ 0 ∧ exMusic.frame_count ≠ 0 ∧ 0 < 30
    ∧ (mix_with_music (fun _ => 1) exVoice exMusic 30 true true).output_frame_count
        = some exVoice.frame_count :=
  ⟨Or.inl (by decide), Or.inl (by decide), by decide, by decide, by decide,
    mix_output_frame_count (fun _ => 1) exVoice exMusic 30 true true
      (Or.inl (by decide)) (Or.inl (by decide)) (by decide) (by decide) (by decide)⟩

/-- C2 counterexample: with a 2-frame music segment and a 4-frame voice
(music strictly shorter), the code repeats the music `4 / 2 + 1 = 3` whole
times, while `ceil(4 / 2) = 2`; so the looping step does not concatenate
exactly `ceil(voice_frames / music_frames)` repetitions. -/
theorem loop_repetition_counterexample :
    exMusic.frame_count < exVoice.frame_count
    ∧ loop_stage exVoice.frame_count exMusic = exMusic.repeatSeg 3
    ∧ (exVoice.frame_count + exMusic.frame_count - 1) / exMusic.frame_count = 2
    ∧ loop_stage exVoice.frame_count exMusic ≠ exMusic.repeatSeg 2
    ∧ (loop_stage exVoice.frame_count exMusic).frame_count = 6 := by
  refine ⟨by decide, by decide, by decide, ?_, by decide⟩
  decide

theorem duration_matching_floor_succ_witness :
    0 < exMusic.frame_count ∧ exMusic.frame_count < exVoice.frame_count
    ∧ loop_stage exVoice.frame_count exMusic
        = exMusic.repeatSeg (exVoice.frame_count / exMusic.frame_count + 1)
    ∧ (loop_stage exVoice.frame_count exMusic).frame_count
        = (exVoice.frame_count / exMusic.frame_count + 1) * exMusic.frame_count
    ∧ exVoice.frame_count ≤ (loop_stage exVoice.frame_count exMusic).frame_count
    ∧ (match_duration exVoice.frame_count exMusic).frame_count = exVoice.frame_count :=
  ⟨by decide, by decide,
    (duration_matching_floor_succ exMusic exVoice.frame_count (by decide) (by decide)).1,
    (duration_matching_floor_succ exMusic exVoice.frame_count (by decide) (by decide)).2.1,
    (duration_matching_floor_succ exMusic exVoice.frame_count (by decide) (by decide)).2.2.1,
    (duration_matching_floor_succ exMusic exVoice.frame_count (by decide) (by decide)).2.2.2.1⟩

/-- C3: with `volume_percent = 0` and non-empty inputs, the mix returns
the voice segment unchanged: the zero-volume branch at lines 69-70 of
`src/main.py` skips resampling, channel remapping, gain, looping, fading
and overlay entirely. -/
theorem zero_volume_returns_voice (g : ℚ → ℚ) (voice music : AudioSegment)
    (fi fo : Bool) (hv : voice.frame_count ≠ 0) (hm : music.frame_count ≠ 0) :
    mix_with_music g voice music 0 fi fo = MixOutcome.success voice := by
  simp [mix_with_music, hv, hm]

theorem zero_volume_returns_voice_witness :
    exVoice.frame_count ≠ 0 ∧ exMusic.frame_count ≠ 0
    ∧ mix_with_music (fun _ => 1) exVoice exMusic 0 true true
        = MixOutcome.success exVoice :=
  ⟨by decide, by decide,
    zero_volume_returns_voice (fun _ => 1) exVoice exMusic true true (by decide) (by decide)⟩

/-- C4: for every volume percentage from 1 to 100, the gain applied to
the music is exactly `-30 + volume_percent * 0.35` decibels (+5 dB at
100, -12.5 dB at 50), applied multiplicatively (through the dB-to-linear
conversion `g`) to every sample of the aligned music segment, before the
duration-matching (looping) stage. -/
theorem gain_formula_and_application (g : ℚ → ℚ) (voice music : AudioSegment)
    (pct : ℕ) (fi fo : Bool) (h1 : 1 ≤ pct) (h100 : pct ≤ 100)
    (hv : voice.frame_count ≠ 0) (hm : music.frame_count ≠ 0) :
    volume_db pct = -30 + (pct : ℚ) * (35 / 100)
    ∧ volume_db 100 = 5
    ∧ volume_db 50 = -12.5
    ∧ (AudioSegment.apply_gain g (volume_db pct) (align_music voice music)).data
        = (align_music voice music).data.map
            (fun fr => fr.map (fun s => clip (g (volume_db pct) * s)))
    ∧ mix_with_music g voice music pct fi fo =
        MixOutcome.success (voice.overlay
          (apply_fades fi fo
            (match_duration voice.frame_count
              (AudioSegment.apply_gain g (volume_db pct)
                (align_music voice music))))) := by
  refine ⟨?_, ?_, ?_, rfl, mix_with_music_eq g voice music pct fi fo hv hm (by omega)⟩
  · unfold volume_db
    norm_num
  · unfold volume_db
    norm_num
  · unfold volume_db
    norm_num

theorem gain_formula_and_application_witness :
    1 ≤ 30 ∧ 30 ≤ 100 ∧ exVoice.frame_count ≠ 0 ∧ exMusic.frame_count ≠ 0
    ∧ (volume_db 30 = -30 + (30 : ℚ) * (35 / 100)
      ∧ volume_db 100 = 5
      ∧ volume_db 50 = -12.5
      ∧ (AudioSegment.apply_gain (fun _ => 1) (volume_db 30) (align_music exVoice exMusic)).data
          = (align_music exVoice exMusic).data.map
              (fun fr => fr.map (fun s => clip ((fun _ => (1 : ℚ)) (volume_db 30) * s)))
      ∧ mix_with_music (fun _ => 1) exVoice exMusic 30 false false =
          MixOutcome.success (exVoice.overlay
            (apply_fades false false
              (match_duration exVoice.frame_count
                (AudioSegment.apply_gain (fun _ => 1) (volume_db 30)
                  (align_music exVoice exMusic)))))) :=
  ⟨by decide, by decide, by decide, by decide,
    gain_formula_and_application (fun _ => 1) exVoice exMusic 30 false false
      (by decide) (by decide) (by decide) (by decide)⟩

/-- C5: fades act on the music only after the duration-matching stage
(the mix overlays the voice with `apply_fades` of the duration-matched
music); `fade_in` is a linear 0-to-1 amplitude ramp over the first
`min(3000 ms, length)` frames, `fade_out` the symmetric 1-to-0 ramp over
the last `min(3000 ms, length)` frames ending at the final frame of the
matched duration, and both preserve the frame count. -/
theorem fades_after_duration_matching (g : ℚ → ℚ) (voice music : AudioSegment)
    (pct : ℕ) (fi fo : Bool)
    (hv : voice.frame_count ≠ 0) (hm : music.frame_count ≠ 0) (hp : pct ≠ 0) :
    mix_with_music g voice music pct fi fo =
      MixOutcome.success (voice.overlay
        (apply_fades fi fo
          (match_duration voice.frame_count
            (AudioSegment.apply_gain g (volume_db pct)
              (align_music voice music)))))
    ∧ (∀ b : AudioSegment, ∀ i : ℕ,
        (b.fade_in 3000).data[i]? =
          if i < min (msToFrames 3000 b.frame_rate) b.frame_count then
            (b.data[i]?).map
              (mulFrame ((i : ℚ) / (min (msToFrames 3000 b.frame_rate) b.frame_count : ℚ)))
          else b.data[i]?)
    ∧ (∀ b : AudioSegment, ∀ i : ℕ,
        (b.fade_out 3000).data[i]? =
          if b.frame_count - min (msToFrames 3000 b.frame_rate) b.frame_count ≤ i then
            (b.data[i]?).map
              (mulFrame (((b.frame_count - 1 - i : ℕ) : ℚ) /
                (min (msToFrames 3000 b.frame_rate) b.frame_count : ℚ)))
          else b.data[i]?)
    ∧ (∀ b : AudioSegment,
        (b.fade_in 3000).frame_count = b.frame_count
        ∧ (b.fade_out 3000).frame_count = b.frame_count) :=
  ⟨mix_with_music_eq g voice music pct fi fo hv hm hp,
    fun b i => fade_in_getElem b 3000 i,
    fun b i => fade_out_getElem b 3000 i,
    fun b => ⟨fade_in_frame_count b 3000, fade_out_frame_count b 3000⟩⟩

theorem fades_after_duration_matching_witness :
    exVoice.frame_count ≠ 0 ∧ exMusic.frame_count ≠ 0 ∧ (30 : ℕ) ≠ 0
    ∧ mix_with_music (fun _ => 1) exVoice exMusic 30 true true =
        MixOutcome.success (exVoice.overlay
          (apply_fades true true
            (match_duration exVoice.frame_count
              (AudioSegment.apply_gain (fun _ => 1) (volume_db 30)
                (align_music exVoice exMusic))))) :=
  ⟨by decide, by decide, by decide,
    (fades_after_duration_matching (fun _ => 1) exVoice exMusic 30 true true
      (by decide) (by decide) (by decide)).1⟩

/-- C6: with an empty voice or music segment, the mix fails up front with
the empty-audio error (the length check at lines 65-67 of `src/main.py`
precedes every processing stage), and no output segment is produced. -/
theorem empty_input_fails_up_front (g : ℚ → ℚ) (voice music : AudioSegment)
    (pct : ℕ) (fi fo : Bool)
    (h : voice.frame_count = 0 ∨ music.frame_count = 0) :
    mix_with_music g voice music pct fi fo = MixOutcome.failure emptyAudioMessage
    ∧ (mix_with_music g voice music pct fi fo).output_frame_count = none := by
  have h1 : mix_with_music g voice music pct fi fo = MixOutcome.failure emptyAudioMessage := by
    unfold mix_with_music
    rw [if_pos h]
  exact ⟨h1, by rw [h1, MixOutcome.output_frame_count]⟩

theorem empty_input_fails_up_front_witness :
    (exEmpty.frame_count = 0 ∨ exMusic.frame_count = 0)
    ∧ mix_with_music (fun _ => 1) exEmpty exMusic 30 false false
        = MixOutcome.failure emptyAudioMessage
    ∧ (mix_with_music (fun _ => 1) exEmpty exMusic 30 false false).output_frame_count
        = none :=
  ⟨Or.inl (by decide),
    (empty_input_fails_up_front (fun _ => 1) exEmpty exMusic 30 false false
      (Or.inl (by decide))).1,
    (empty_input_fails_up_front (fun _ => 1) exEmpty exMusic 30 false false
      (Or.inl (by decide))).2⟩

/-- C7 counterexample: an export-stage failure with exception text
"ffmpeg exited with code 1" surfaces through the one catch-all handler as
the generic message with a `False` return, and that message does not
contain the failing stage's name, refuting that every failure surfaces as
an error tagged with the name of the failing stage. -/
theorem mix_error_not_stage_tagged :
    surfaceMixFailure "export" "ffmpeg exited with code 1"
      = ("Error mixing audio: ffmpeg exited with code 1", false)
    ∧ ¬ ("export".toList <:+:
          (surfaceMixFailure "export" "ffmpeg exited with code 1").1.toList) := by
  refine ⟨rfl, ?_⟩
  decide

/-- C7 (amended): every failure during mixing surfaces to the caller as
the single generic message "Error mixing audio: " plus the exception
text, with a `False` return, identically for every stage (no stage tag);
the only failure the mixing logic itself generates is the up-front
empty-input error, and a failure outcome carries no output segment. -/
theorem mix_failure_generic (g : ℚ → ℚ) (voice music : AudioSegment)
    (pct : ℕ) (fi fo : Bool) (s1 s2 e msg : String)
    (h : mix_with_music g voice music pct fi fo = MixOutcome.failure msg) :
    surfaceMixFailure s1 e = ("Error mixing audio: " ++ e, false)
    ∧ surfaceMixFailure s1 e = surfaceMixFailure s2 e
    ∧ msg = emptyAudioMessage := by
  refine ⟨rfl, rfl, ?_⟩
  unfold mix_with_music at h
  split at h
  · injection h with h2
    exact h2.symm
  · split at h
    · exact MixOutcome.noConfusion h
    · exact MixOutcome.noConfusion h

theorem mix_failure_generic_witness :
    mix_with_music (fun _ => 1) exEmpty exMusic 30 false false
      = MixOutcome.failure emptyAudioMessage
    ∧ (surfaceMixFailure "resample" "boom" = ("Error mixing audio: boom", false)
      ∧ surfaceMixFailure "resample" "boom" = surfaceMixFailure "overlay" "boom"
      ∧ emptyAudioMessage = emptyAudioMessage) :=
  ⟨by decide,
    mix_failure_generic (fun _ => 1) exEmpty exMusic 30 false false
      "resample" "overlay" "boom" emptyAudioMessage (by decide)⟩

/-- C8 counterexample: a Preview invocation with music enabled creates
three temporary files, all with delete=False, and deletes none of them on
its successful exit path, so temporary files persist after the
invocation, refuting that every temporary file is deleted on every exit
path. -/
theorem temp_files_persist :
    previewCreatedTempFiles true true 30
      = [TempFile.voiceTmp, TempFile.musicTmp, TempFile.mixedTmp]
    ∧ previewDeletedTempFiles true true 30 ExitPath.mixSucceeded = []
    ∧ persistedTempFiles (previewCreatedTempFiles true true 30)
        (previewDeletedTempFiles true true 30 ExitPath.mixSucceeded) ≠ [] := by
  refine ⟨by decide, rfl, by decide⟩

/-- C8 (amended): the Preview and Download handlers create their
temporary files with delete=False and delete none of them on any exit
path (success, mix failure, or caught exception); every temporary file
created persists after the invocation. -/
theorem temp_files_never_deleted (um hm rt : Bool) (pct : ℕ) (p : ExitPath) :
    previewDeletedTempFiles um hm pct p = []
    ∧ downloadDeletedTempFiles um hm rt pct p = []
    ∧ persistedTempFiles (previewCreatedTempFiles um hm pct)
        (previewDeletedTempFiles um hm pct p) = previewCreatedTempFiles um hm pct
    ∧ persistedTempFiles (downloadCreatedTempFiles um hm rt pct)
        (downloadDeletedTempFiles um hm rt pct p) = downloadCreatedTempFiles um hm rt pct
    ∧ TempFile.voiceTmp ∈ previewCreatedTempFiles um hm pct
    ∧ TempFile.voiceTmp ∈ downloadCreatedTempFiles um hm rt pct := by
  refine ⟨rfl, rfl, ?_, ?_, ?_, ?_⟩
  · simp [persistedTempFiles, previewDeletedTempFiles]
  · simp [persistedTempFiles, downloadDeletedTempFiles]
  · simp [previewCreatedTempFiles]
  · simp [downloadCreatedTempFiles]

/-- C9: the diagnostic preview overlays the first
`min(voice_duration, 5000 ms)` of the voice with the same-length slice of
the music after a fixed -20 dB gain (the `volume_percent` formula is not
used), with the same frame-wise saturating-sum overlay rule as the full
mix. -/
theorem preview_overlay_characterization (g : ℚ → ℚ) (voice music : AudioSegment)
    (hr : music.frame_rate = voice.frame_rate) (hc : music.channels = voice.channels) :
    (test_mixed g voice music).frame_count
      = min voice.frame_count (msToFrames 5000 voice.frame_rate)
    ∧ ∀ i, i < test_cut voice →
        (test_mixed g voice music).data[i]? =
          Option.map (fun vfr =>
            match music.data[i]? with
            | some mfr => addFrame vfr (mulFrame (g (-20)) mfr)
            | none => vfr) voice.data[i]? := by
  have hch : ((AudioSegment.apply_gain g (-20) music).takeFrames (test_cut voice)).channels
      = (voice.takeFrames (test_cut voice)).channels := by
    rw [takeFrames_channels, takeFrames_channels, apply_gain_channels, hc]
  have hfr : ((AudioSegment.apply_gain g (-20) music).takeFrames (test_cut voice)).frame_rate
      = (voice.takeFrames (test_cut voice)).frame_rate := by
    rw [takeFrames_frame_rate, takeFrames_frame_rate, apply_gain_frame_rate, hr]
  have heq := overlay_aligned (voice.takeFrames (test_cut voice))
    ((AudioSegment.apply_gain g (-20) music).takeFrames (test_cut voice)) hch hfr
  have hcut : test_cut voice ≤ voice.frame_count := min_le_left _ _
  constructor
  · rw [test_mixed, heq]
    simp only [AudioSegment.frame_count, AudioSegment.takeFrames, List.length_mapIdx,
      List.length_take, test_cut]
    omega
  · intro i hi
    rw [test_mixed, heq]
    simp only [AudioSegment.takeFrames, List.getElem?_mapIdx, List.getElem?_take, if_pos hi,
      AudioSegment.apply_gain, List.getElem?_map]
    cases hmi : music.data[i]? <;> cases hvi : voice.data[i]? <;>
      simp [hmi, hvi, Option.map]

theorem preview_overlay_characterization_witness :
    exMusic.frame_rate = exVoice.frame_rate ∧ exMusic.channels = exVoice.channels
    ∧ (test_mixed (fun _ => 1) exVoice exMusic).frame_count
        = min exVoice.frame_count (msToFrames 5000 exVoice.frame_rate) :=
  ⟨by decide, by decide,
    (preview_overlay_characterization (fun _ => 1) exVoice exMusic (by decide) (by decide)).1⟩

/-- C10 (implicit): even with `volume_percent = 0`, the empty-input check
at lines 65-67 of `src/main.py` runs on the decoded music before the
zero-volume shortcut at line 69, so a mix with a valid voice and an empty
music segment fails instead of returning the voice. -/
theorem zero_volume_still_checks_music (g : ℚ → ℚ) (voice music : AudioSegment)
    (fi fo : Bool) (hm : music.frame_count = 0) :
    mix_with_music g voice music 0 fi fo = MixOutcome.failure emptyAudioMessage
    ∧ mix_with_music g voice music 0 fi fo ≠ MixOutcome.success voice := by
  have h1 : mix_with_music g voice music 0 fi fo = MixOutcome.failure emptyAudioMessage := by
    unfold mix_with_music
    rw [if_pos (Or.inr hm)]
  refine ⟨h1, fun hc => ?_⟩
  rw [h1] at hc
  exact MixOutcome.noConfusion hc

theorem zero_volume_still_checks_music_witness :
    exEmpty.frame_count = 0
    ∧ mix_with_music (fun _ => 1) exVoice exEmpty 0 true true
        = MixOutcome.failure emptyAudioMessage
    ∧ mix_with_music (fun _ => 1) exVoice exEmpty 0 true true
        ≠ MixOutcome.success exVoice :=
  ⟨by decide,
    (zero_volume_still_checks_music (fun _ => 1) exVoice exEmpty true true (by decide)).1,
    (zero_volume_still_checks_music (fun _ => 1) exVoice exEmpty true true (by decide)).2⟩

end DV
